import Mathlib

/-!
Verification of the VentureVision orchestration core (`agents.py`).

The embedding models the parsed Python values flowing through the pipeline
as a `Json` inductive (the values produced by `json.loads` and the literal
dict/str values the code constructs), and models the external collaborators
(the generation service, `json.loads` on its free-text output, the lookup
tool, and the LangGraph react-agent loop) as explicit environment
parameters: each external call site is one field of an `Env` record, so a
theorem quantifying over `Env` covers every behaviour of the services,
including raising.  Raised Python exceptions are `Except.error` values.
-/

set_option autoImplicit false

namespace VentureVision

/-- Parsed Python/JSON values as they flow through the pipeline: the result
of `json.loads`, the dict literals the agents return, and the raw value the
synthesizer call hands back. -/
inductive Json where
  | null : Json
  | bool (b : Bool) : Json
  | num (n : Int) : Json
  | str (s : String) : Json
  | arr (xs : List Json) : Json
  | obj (fields : List (String × Json)) : Json
deriving Repr

/-- Python truthiness (`not x` in the source gate): `None`, `False`, `0`,
`""`, `[]` and `{}` are falsy. -/
def Json.falsy : Json → Bool
  | .null => true
  | .bool b => !b
  | .num n => n == 0
  | .str s => s == ""
  | .arr xs => xs.isEmpty
  | .obj fs => fs.isEmpty

/-- Python `x == "lit"` for a dynamically typed `x`: true exactly when `x`
is the string `lit`. -/
def Json.eqStr (j : Json) (s : String) : Bool :=
  match j with
  | .str t => t == s
  | _ => false

/-- Python type name, as it appears in `AttributeError` messages. -/
def Json.pyTypeName : Json → String
  | .null => "NoneType"
  | .bool _ => "bool"
  | .num _ => "int"
  | .str _ => "str"
  | .arr _ => "list"
  | .obj _ => "dict"

/-- Python `dict.get(key)`: first binding for `key`, `None` (here `none`)
when absent. -/
def getField (fields : List (String × Json)) (k : String) : Option Json :=
  (fields.find? (fun p => p.1 == k)).map Prod.snd

/-- Lookup in the string-valued report dicts the agents return. -/
def getRecField (r : List (String × String)) (k : String) : Option String :=
  (r.find? (fun p => p.1 == k)).map Prod.snd

/-! ### The three response schemas (the pydantic `BaseModel`s of `agents.py`) -/

/-- `MarketAnalysisResponse`: the seven declared sections of a market
analysis report. -/
structure MarketAnalysisResponse where
  market_overview : String
  competitive_landscape : String
  target_customers : String
  regulatory_environment : String
  swot_analysis : String
  emerging_trends : String
  key_recommendations : String
deriving Repr, DecidableEq

/-- `CompetitiveAnalysisResponse`: the six declared sections of a
competitive analysis report. -/
structure CompetitiveAnalysisResponse where
  competitors : String
  competitor_profiles : String
  market_positioning : String
  strengths_weaknesses : String
  opportunities_threats : String
  strategic_recommendations : String
deriving Repr, DecidableEq

/-- `FinancialAnalysisResponse`: the six declared sections of a financial
analysis report. -/
structure FinancialAnalysisResponse where
  startup_costs : String
  revenue_potential : String
  funding_options : String
  profit_margins : String
  financial_risks : String
  strategic_recommendations : String
deriving Repr, DecidableEq

/-- Pydantic `.dict()` on a `MarketAnalysisResponse`: all declared fields,
in declaration order. -/
def MarketAnalysisResponse.toDict (r : MarketAnalysisResponse) : List (String × String) :=
  [("market_overview", r.market_overview),
   ("competitive_landscape", r.competitive_landscape),
   ("target_customers", r.target_customers),
   ("regulatory_environment", r.regulatory_environment),
   ("swot_analysis", r.swot_analysis),
   ("emerging_trends", r.emerging_trends),
   ("key_recommendations", r.key_recommendations)]

/-- Pydantic `.dict()` on a `CompetitiveAnalysisResponse`. -/
def CompetitiveAnalysisResponse.toDict (r : CompetitiveAnalysisResponse) : List (String × String) :=
  [("competitors", r.competitors),
   ("competitor_profiles", r.competitor_profiles),
   ("market_positioning", r.market_positioning),
   ("strengths_weaknesses", r.strengths_weaknesses),
   ("opportunities_threats", r.opportunities_threats),
   ("strategic_recommendations", r.strategic_recommendations)]

/-- Pydantic `.dict()` on a `FinancialAnalysisResponse`. -/
def FinancialAnalysisResponse.toDict (r : FinancialAnalysisResponse) : List (String × String) :=
  [("startup_costs", r.startup_costs),
   ("revenue_potential", r.revenue_potential),
   ("funding_options", r.funding_options),
   ("profit_margins", r.profit_margins),
   ("financial_risks", r.financial_risks),
   ("strategic_recommendations", r.strategic_recommendations)]

/-- One required `str` field of a pydantic model: present and a string, or
a `ValidationError` (pydantic v2 does not coerce non-strings in lax mode;
extra keys are ignored). -/
def reqStrField (d : List (String × Json)) (k : String) : Except String String :=
  match getField d k with
  | some (Json.str s) => Except.ok s
  | some _ => Except.error ("validation error: field " ++ k ++ " must be a string")
  | none => Except.error ("validation error: field " ++ k ++ " required")

/-- `MarketAnalysisResponse(**d)`: pydantic validation of a dict. -/
def MarketAnalysisResponse.validate (d : List (String × Json)) :
    Except String MarketAnalysisResponse := do
  let mo ← reqStrField d "market_overview"
  let cl ← reqStrField d "competitive_landscape"
  let tc ← reqStrField d "target_customers"
  let re ← reqStrField d "regulatory_environment"
  let sw ← reqStrField d "swot_analysis"
  let et ← reqStrField d "emerging_trends"
  let kr ← reqStrField d "key_recommendations"
  Except.ok ⟨mo, cl, tc, re, sw, et, kr⟩

/-- `CompetitiveAnalysisResponse(**d)`: pydantic validation of a dict. -/
def CompetitiveAnalysisResponse.validate (d : List (String × Json)) :
    Except String CompetitiveAnalysisResponse := do
  let co ← reqStrField d "competitors"
  let cp ← reqStrField d "competitor_profiles"
  let mp ← reqStrField d "market_positioning"
  let sw ← reqStrField d "strengths_weaknesses"
  let ot ← reqStrField d "opportunities_threats"
  let sr ← reqStrField d "strategic_recommendations"
  Except.ok ⟨co, cp, mp, sw, ot, sr⟩

/-! ### Agent execution outcomes

Each analysis agent wraps one `await agent.ainvoke(...)` in a `try`.  The
dynamically typed value `structured = result.get('structured_response',
result)` is then dispatched on.  The outcome type enumerates the cases the
source dispatches on: the call raised; `structured` is a schema instance;
`structured` is a dict; `structured` is some other object. -/

/-- Possible outcomes of the market agent's react-loop invocation. -/
inductive MarketOutcome where
  | raised (msg : String) : MarketOutcome
  | structuredModel (r : MarketAnalysisResponse) : MarketOutcome
  | structuredDict (d : List (String × Json)) : MarketOutcome
  | structuredOther : MarketOutcome

/-- Possible outcomes of the competitive agent's react-loop invocation. -/
inductive CompetitiveOutcome where
  | raised (msg : String) : CompetitiveOutcome
  | structuredModel (r : CompetitiveAnalysisResponse) : CompetitiveOutcome
  | structuredDict (d : List (String × Json)) : CompetitiveOutcome
  | structuredOther : CompetitiveOutcome

/-- Possible outcomes of the financial agent's react-loop invocation.  For
a non-model `structured`, the source calls `.dict()` on it unconditionally,
so the non-model cases carry the Python type name that appears in the
resulting `AttributeError`. -/
inductive FinancialOutcome where
  | raised (msg : String) : FinancialOutcome
  | structuredModel (r : FinancialAnalysisResponse) : FinancialOutcome
  | structuredDict (d : List (String × Json)) : FinancialOutcome
  | structuredOther (typeName : String) : FinancialOutcome

/-- The `except` fallback record of `run_market_analysis_agent`, with the
given string in the `market_overview` slot. -/
def marketFallbackRecord (msg : String) : List (String × String) :=
  [("market_overview", msg),
   ("competitive_landscape", ""),
   ("target_customers", ""),
   ("regulatory_environment", ""),
   ("swot_analysis", ""),
   ("emerging_trends", ""),
   ("key_recommendations", "")]

/-- The `except` fallback record of `run_competitive_analysis_agent`. -/
def competitiveFallbackRecord (msg : String) : List (String × String) :=
  [("competitors", msg),
   ("competitor_profiles", ""),
   ("market_positioning", ""),
   ("strengths_weaknesses", ""),
   ("opportunities_threats", ""),
   ("strategic_recommendations", "")]

/-- The `except` fallback record of `financial_analysis`. -/
def financialFallbackRecord (msg : String) : List (String × String) :=
  [("startup_costs", msg),
   ("revenue_potential", ""),
   ("funding_options", ""),
   ("profit_margins", ""),
   ("financial_risks", ""),
   ("strategic_recommendations", "")]

/-- `run_market_analysis_agent` (`agents.py`): dispatch on the react-loop
outcome.  A schema instance is returned via `.dict()`; a dict goes through
`MarketAnalysisResponse(**structured)` whose `ValidationError` is caught by
the enclosing `except` (yielding the fallback record); any other structure
yields the literal fallback; a raised exception `e` yields the
`f"Error: \x7be\x7d"` fallback. -/
def run_market_analysis_agent : MarketOutcome → List (String × String)
  | .raised e => marketFallbackRecord ("Error: " ++ e)
  | .structuredModel r => r.toDict
  | .structuredDict d =>
      match MarketAnalysisResponse.validate d with
      | .ok r => r.toDict
      | .error e => marketFallbackRecord ("Error: " ++ e)
  | .structuredOther => marketFallbackRecord "Error: Unexpected response structure."

/-- `run_competitive_analysis_agent` (`agents.py`): same shape as the
market agent over the competitive schema. -/
def run_competitive_analysis_agent : CompetitiveOutcome → List (String × String)
  | .raised e => competitiveFallbackRecord ("Error: " ++ e)
  | .structuredModel r => r.toDict
  | .structuredDict d =>
      match CompetitiveAnalysisResponse.validate d with
      | .ok r => r.toDict
      | .error e => competitiveFallbackRecord ("Error: " ++ e)
  | .structuredOther => competitiveFallbackRecord "Error: Unexpected response structure."

/-- The `try` body plus `except` of `financial_analysis`: the source calls
`structured.dict()` with no `isinstance` dispatch, so a dict or any other
non-model value raises `AttributeError`, which the `except` turns into the
fallback record. -/
def financial_analysis_core : FinancialOutcome → List (String × String)
  | .raised e => financialFallbackRecord ("Error: " ++ e)
  | .structuredModel r => r.toDict
  | .structuredDict _ =>
      financialFallbackRecord "Error: \x27dict\x27 object has no attribute \x27dict\x27"
  | .structuredOther tn =>
      financialFallbackRecord ("Error: \x27" ++ tn ++ "\x27 object has no attribute \x27dict\x27")

/-- The declared key list of the market schema, in declaration order. -/
def marketAnalysisKeys : List String :=
  ["market_overview", "competitive_landscape", "target_customers",
   "regulatory_environment", "swot_analysis", "emerging_trends", "key_recommendations"]

/-- The declared key list of the competitive schema. -/
def competitiveAnalysisKeys : List String :=
  ["competitors", "competitor_profiles", "market_positioning",
   "strengths_weaknesses", "opportunities_threats", "strategic_recommendations"]

/-- The declared key list of the financial schema. -/
def financialAnalysisKeys : List String :=
  ["startup_costs", "revenue_potential", "funding_options",
   "profit_margins", "financial_risks", "strategic_recommendations"]

/-! ### Python string rendering (f-string interpolation of dynamic values) -/

mutual

/-- Python `repr()` of a parsed value, as used inside container renderings
(string-escaping subtleties are irrelevant to the claims). -/
def Json.pyRepr : Json → String
  | .null => "None"
  | .bool b => if b then "True" else "False"
  | .num n => toString n
  | .str s => "\x27" ++ s ++ "\x27"
  | .arr xs => "[" ++ Json.pyReprList xs ++ "]"
  | .obj fs => "\x7b" ++ Json.pyReprFields fs ++ "\x7d"

/-- Comma-separated `repr()`s of list elements. -/
def Json.pyReprList : List Json → String
  | [] => ""
  | [x] => Json.pyRepr x
  | x :: xs => Json.pyRepr x ++ ", " ++ Json.pyReprList xs

/-- Comma-separated `repr()`s of dict entries. -/
def Json.pyReprFields : List (String × Json) → String
  | [] => ""
  | [(k, v)] => "\x27" ++ k ++ "\x27: " ++ Json.pyRepr v
  | (k, v) :: fs => "\x27" ++ k ++ "\x27: " ++ Json.pyRepr v ++ ", " ++ Json.pyReprFields fs

end

/-- Python `str()`, the conversion an f-string applies: a string renders as
itself, anything else as its `repr()`. -/
def Json.pyStr : Json → String
  | .str s => s
  | j => j.pyRepr

/-! ### Intent Extractor (`extract` in `agents.py`) -/

/-- The post-`strip()` cleanup of the generation service's output before
`json.loads`: drop a Markdown code fence wrapper when present. -/
def cleanLLMOutput (content : String) : String :=
  let s := content.trim
  if s.startsWith "```json" then
    ((s.replace "```json" "").replace "```" "").trim
  else if s.startsWith "```" && s.endsWith "```" then
    ((s.drop 3).dropRight 3).trim
  else s

/-- The record `extract` returns from its `except json.JSONDecodeError`
branch: the three sentinels, the error text, and the raw (cleaned) output. -/
def extractDecodeErrorRecord (err raw : String) : Json :=
  Json.obj [("business", Json.str "unknown"), ("location", Json.str "any"),
            ("description", Json.str "N/A"), ("error", Json.str err),
            ("raw_llm_output", Json.str raw)]

/-- The record `extract` returns from its generic `except Exception`
branch: the three sentinels and the error text. -/
def extractGenericErrorRecord (err : String) : Json :=
  Json.obj [("business", Json.str "unknown"), ("location", Json.str "any"),
            ("description", Json.str "N/A"), ("error", Json.str err)]

/-- `extract(text)` (`agents.py`), parameterized by the two external
effects inside its `try`: the generation-service invocation on the query
(`llm`, which may raise) and `json.loads` on the cleaned output
(`loads`, which may raise `JSONDecodeError`).  On a successful parse the
source returns `extracted_data` as-is, whatever JSON value it is. -/
def extract (llm : String → Except String String)
    (loads : String → Except String Json) (text : String) : Json :=
  match llm text with
  | .error e => extractGenericErrorRecord e
  | .ok content =>
      let cleaned := cleanLLMOutput content
      match loads cleaned with
      | .error e => extractDecodeErrorRecord e cleaned
      | .ok v => v

/-! ### Financial Analysis Agent (`financial_analysis` in `agents.py`) -/

/-- The fixed battery of direct lookup queries issued before the reasoning
loop, parameterized by the (dynamically typed) business and location. -/
def financialQueries (business location : Json) : List String :=
  ["startup costs for " ++ business.pyStr ++ " in " ++ location.pyStr,
   "average revenue for " ++ business.pyStr ++ " in " ++ location.pyStr,
   "funding options for " ++ business.pyStr ++ " startup",
   "profit margins for " ++ business.pyStr ++ " industry"]

/-- The per-query `try`/`except` loop of `financial_analysis`: a successful
`search_tool.run` appends a formatted block to `financial_results`; a
raising one appends an `st.warning` message instead and the loop goes on.
Returns `(financial_results, warnings)` in issue order. -/
def runFinancialQueries (searchRun : String → Except String String) :
    List String → List String × List String
  | [] => ([], [])
  | q :: rest =>
      let tail := runFinancialQueries searchRun rest
      match searchRun q with
      | .ok s =>
          (("--- Search Results for \x27" ++ q ++ "\x27 ---\n" ++ s ++ "\n") :: tail.1,
           tail.2)
      | .error e =>
          (tail.1,
           ("Error performing search for \x27" ++ q ++ "\x27: " ++ e ++ "\n") :: tail.2)

/-- Observable state of one `financial_analysis` run: the collected search
blocks, the warnings for swallowed failures, the joined (and, in the
source, subsequently unused) `combined_results` string, and the returned
report record. -/
structure FinancialRun where
  searchLog : List String
  warnings : List String
  combined_results : String
  report : List (String × String)

/-- `financial_analysis(business, location, description)` (`agents.py`):
run the four direct queries (failures swallowed with a warning), join the
results, then run the react loop and coerce its outcome.  `outcome` is the
react-loop result, already determined by the inputs and the external
services; the description only feeds the opaque loop. -/
def financial_analysis (searchRun : String → Except String String)
    (outcome : FinancialOutcome) (business location : Json) : FinancialRun :=
  let collected := runFinancialQueries searchRun (financialQueries business location)
  { searchLog := collected.1
    warnings := collected.2
    combined_results := String.intercalate "\n" collected.1
    report := financial_analysis_core outcome }

/-! ### Synthesizer and Orchestrator (`combined_agent` in `agents.py`) -/

/-- String escaping of `json.dumps` for the characters relevant here
(backslash and double quote; control-character escapes do not arise in the
claims). -/
def jsonEscape (s : String) : String :=
  (s.replace "\\" "\\\\").replace "\"" "\\\""

/-- `json.dumps(report, indent=2)` on one of the string-valued report
dicts, as fed into the synthesis prompt. -/
def jsonDumpsReport (d : List (String × String)) : String :=
  match d with
  | [] => "\x7b\x7d"
  | _ =>
      "\x7b\n" ++
      String.intercalate ",\n"
        (d.map (fun p => "  \"" ++ jsonEscape p.1 ++ "\": \"" ++ jsonEscape p.2 ++ "\"")) ++
      "\n\x7d"

/-- The six-field input dict `combined_agent` passes to
`final_agent.ainvoke`: the three intent values and the three
`json.dumps(..., indent=2)` report serializations. -/
structure SynthInput where
  business : Json
  location : Json
  description : Json
  market : String
  competition : String
  financial : String

/-- Build the synthesis input exactly as `combined_agent` does. -/
def mkSynthInput (business location description : Json)
    (market competition financial : List (String × String)) : SynthInput :=
  { business := business, location := location, description := description
    market := jsonDumpsReport market
    competition := jsonDumpsReport competition
    financial := jsonDumpsReport financial }

/-- The synthesis stage: instantiate the fixed summary prompt with the six
inputs and invoke the (tool-less) final agent, returning its raw response.
`synthFn` is the external generation call; the prompt template is a fixed
deterministic function of the `SynthInput`, so it is folded into
`synthFn`'s argument. -/
def synthesize (synthFn : SynthInput → Json) (business location description : Json)
    (market competition financial : List (String × String)) : Json :=
  synthFn (mkSynthInput business location description market competition financial)

/-- The environment of one `combined_agent` run: every external call site
of the pipeline.  The three react-loop outcomes are functions of the
(business, location, description) values handed to the respective agent,
so distinct agents may see distinct service behaviour. -/
structure Env where
  extractLLM : String → Except String String
  jsonLoads : String → Except String Json
  marketOutcome : Json → Json → Json → MarketOutcome
  competitiveOutcome : Json → Json → Json → CompetitiveOutcome
  finSearch : String → Except String String
  financialOutcome : Json → Json → Json → FinancialOutcome
  synth : SynthInput → Json

/-- The halt record of the step-1 gate:
`\x7b"error": ..., "extracted_info": extracted\x7d`. -/
def extractionFailureRecord (extracted : Json) : Json :=
  Json.obj [("error", Json.str "Business type or location could not be extracted."),
            ("extracted_info", extracted)]

/-- Which pipeline stages ran, and with what intermediate values: the three
local report dicts and the synthesis input, `none` for a stage that was
never invoked. -/
structure CombinedTrace where
  marketReport : Option (List (String × String))
  competitiveReport : Option (List (String × String))
  financialReport : Option (List (String × String))
  synthInput : Option SynthInput

/-- The trace of a run that halted before step 2. -/
def noAgentTrace : CombinedTrace :=
  { marketReport := none, competitiveReport := none,
    financialReport := none, synthInput := none }

/-- `combined_agent(user_query)` (`agents.py`), instrumented with the stage
trace.  Step 1 extracts; `.get` on a non-dict extraction result raises
`AttributeError` (modelled as `Except.error`).  The gate is the source's
`if not business or not location or business == "unknown"`, written here
with the `None` cases (absent keys, on which `not x` is true) split out of
the truthiness test.  Past the gate the three agents run on the same
intent values and the synthesizer's raw response is returned as-is. -/
def combined_agent_traced (env : Env) (user_query : String) :
    Except String Json × CombinedTrace :=
  let extracted := extract env.extractLLM env.jsonLoads user_query
  match extracted with
  | Json.obj fields =>
      match getField fields "business", getField fields "location" with
      | some b, some l =>
          if b.falsy || l.falsy || b.eqStr "unknown" then
            (Except.ok (extractionFailureRecord extracted), noAgentTrace)
          else
            let description := (getField fields "description").getD (Json.str "N/A")
            let market := run_market_analysis_agent (env.marketOutcome b l description)
            let competition := run_competitive_analysis_agent (env.competitiveOutcome b l description)
            let finRun := financial_analysis env.finSearch (env.financialOutcome b l description) b l
            let si := mkSynthInput b l description market competition finRun.report
            (Except.ok (env.synth si),
             { marketReport := some market, competitiveReport := some competition,
               financialReport := some finRun.report, synthInput := some si })
      | _, _ =>
          (Except.ok (extractionFailureRecord extracted), noAgentTrace)
  | other =>
      (Except.error ("AttributeError: \x27" ++ other.pyTypeName ++
        "\x27 object has no attribute \x27get\x27"), noAgentTrace)

/-- `combined_agent`'s return value (or uncaught exception). -/
def combined_agent (env : Env) (user_query : String) : Except String Json :=
  (combined_agent_traced env user_query).1

/-- The source's gate condition on the two looked-up values:
`not business or not location or business == "unknown"`, with `None`
(an absent key) falsy. -/
def gateHalts (business location : Option Json) : Bool :=
  match business, location with
  | some b, some l => b.falsy || l.falsy || b.eqStr "unknown"
  | _, _ => true

/-! ### Spec-side checkers

These predicates transcribe the spec's data-model wording (not the code),
for stating refinement-style claims against the embedded functions. -/

/-- Spec wording: an IntentRecord has string fields `business`, `location`
and `description` (error/raw fields optional). -/
def specWellFormedIntentRecord (j : Json) : Bool :=
  match j with
  | Json.obj fields =>
      (match getField fields "business", getField fields "location",
             getField fields "description" with
       | some (Json.str _), some (Json.str _), some (Json.str _) => true
       | _, _, _ => false)
  | _ => false

/-- Spec wording: a CombinedResult is a record with exactly the four string
fields `market_analysis`, `competitive_analysis`, `financial_analysis`,
`executive_summary`. -/
def specIsCombinedResult (j : Json) : Bool :=
  match j with
  | Json.obj fields =>
      fields.map Prod.fst
        == ["market_analysis", "competitive_analysis", "financial_analysis",
            "executive_summary"]
      && fields.all (fun p => match p.2 with | Json.str _ => true | _ => false)
  | _ => false

/-- Spec wording for a degraded report: the kind's primary field carries a
string of the form `"Error: <cause>"` and every other declared field is the
empty string. -/
def specDegradedRecord (primaryKey : String) (r : List (String × String)) : Bool :=
  r.all (fun p => if p.1 == primaryKey then p.2.startsWith "Error: " else p.2 == "")

end VentureVision

namespace VentureVision

/-- Spec wording for a degraded report, propositionally: the primary field
carries `"Error: <cause>"` for some cause, every other field is `""`. -/
def SpecDegraded (primaryKey : String) (r : List (String × String)) : Prop :=
  ∀ p ∈ r, if p.1 = primaryKey then ∃ cause, p.2 = "Error: " ++ cause else p.2 = ""

/-! ### Helper lemmas -/

/-- Characterization of a `combined_agent` run that halts at the gate. -/
lemma combined_halt_char (env : Env) (q : String) (fields : List (String × Json))
    (hx : extract env.extractLLM env.jsonLoads q = Json.obj fields)
    (hhalt : gateHalts (getField fields "business") (getField fields "location") = true) :
    combined_agent_traced env q =
      (Except.ok (extractionFailureRecord (Json.obj fields)), noAgentTrace) := by
  cases hb : getField fields "business" with
  | none =>
      simp only [combined_agent_traced, hx, hb]
  | some b =>
      cases hl : getField fields "location" with
      | none => simp only [combined_agent_traced, hx, hb, hl]
      | some l =>
          simp only [gateHalts, hb, hl] at hhalt
          simp only [combined_agent_traced, hx, hb, hl, hhalt, if_true]

/-- Characterization of a `combined_agent` run that passes the gate: all
three agents run on the shared intent values and the synthesizer's raw
response is returned. -/
lemma combined_run_char (env : Env) (q : String) (fields : List (String × Json))
    (b l d : Json)
    (hx : extract env.extractLLM env.jsonLoads q = Json.obj fields)
    (hb : getField fields "business" = some b)
    (hl : getField fields "location" = some l)
    (hd : d = (getField fields "description").getD (Json.str "N/A"))
    (hgate : (b.falsy || l.falsy || b.eqStr "unknown") = false) :
    combined_agent_traced env q =
      (Except.ok (synthesize env.synth b l d
          (run_market_analysis_agent (env.marketOutcome b l d))
          (run_competitive_analysis_agent (env.competitiveOutcome b l d))
          (financial_analysis_core (env.financialOutcome b l d))),
       { marketReport := some (run_market_analysis_agent (env.marketOutcome b l d))
         competitiveReport := some (run_competitive_analysis_agent (env.competitiveOutcome b l d))
         financialReport := some (financial_analysis_core (env.financialOutcome b l d))
         synthInput := some (mkSynthInput b l d
           (run_market_analysis_agent (env.marketOutcome b l d))
           (run_competitive_analysis_agent (env.competitiveOutcome b l d))
           (financial_analysis_core (env.financialOutcome b l d))) }) := by
  subst hd
  simp only [combined_agent_traced, hx, hb, hl, hgate, Bool.false_eq_true, if_false]
  rfl

/-- The query loop, characterized: each query contributes its formatted
block when its lookup succeeds and its warning when it raises, one never
displacing the others. -/
lemma runFinancialQueries_spec (sr : String → Except String String) (qs : List String) :
    runFinancialQueries sr qs =
      (qs.filterMap (fun q =>
         match sr q with
         | .ok s => some ("--- Search Results for \x27" ++ q ++ "\x27 ---\n" ++ s ++ "\n")
         | .error _ => none),
       qs.filterMap (fun q =>
         match sr q with
         | .ok _ => none
         | .error e => some ("Error performing search for \x27" ++ q ++ "\x27: " ++ e ++ "\n"))) := by
  induction qs with
  | nil => rfl
  | cons q rest ih =>
      cases hq : sr q <;>
        simp [runFinancialQueries, ih, hq, List.filterMap_cons]

/-! ### Claims -/

/-- C1.  Total-field invariant: for each of the three analysis agents and
every outcome of the underlying services (structured response, dict
response, unexpected structure, raised exception — and, for the financial
agent, any lookup behaviour), the returned record carries exactly the
declared keys of its schema (7 for Market, 6 for Competitive, 6 for
Financial), in order, each mapped to a string, none absent. -/
theorem c1_total_field_invariant :
    ∀ (om : MarketOutcome) (oc : CompetitiveOutcome)
      (sr : String → Except String String) (fo : FinancialOutcome) (b l : Json),
      (run_market_analysis_agent om).map Prod.fst = marketAnalysisKeys ∧
      (run_competitive_analysis_agent oc).map Prod.fst = competitiveAnalysisKeys ∧
      ((financial_analysis sr fo b l).report).map Prod.fst = financialAnalysisKeys := by
  intro om oc sr fo b l
  refine ⟨?_, ?_, ?_⟩
  · cases om with
    | raised e => rfl
    | structuredModel r => rfl
    | structuredDict d =>
        cases hv : MarketAnalysisResponse.validate d with
        | ok r => simp [run_market_analysis_agent, hv, MarketAnalysisResponse.toDict, marketAnalysisKeys]
        | error e => simp [run_market_analysis_agent, hv, marketFallbackRecord, marketAnalysisKeys]
    | structuredOther => rfl
  · cases oc with
    | raised e => rfl
    | structuredModel r => rfl
    | structuredDict d =>
        cases hv : CompetitiveAnalysisResponse.validate d with
        | ok r => simp [run_competitive_analysis_agent, hv, CompetitiveAnalysisResponse.toDict, competitiveAnalysisKeys]
        | error e => simp [run_competitive_analysis_agent, hv, competitiveFallbackRecord, competitiveAnalysisKeys]
    | structuredOther => rfl
  · show (financial_analysis_core fo).map Prod.fst = financialAnalysisKeys
    cases fo <;> rfl

/-- An environment whose extraction yields a usable business (`"Bakery"`)
but an empty location — realizable, e.g., when the generation service
answers with that JSON object. -/
def envGateLoc : Env :=
  { extractLLM := fun _ => Except.ok "x"
    jsonLoads := fun _ =>
      Except.ok (Json.obj [("business", Json.str "Bakery"), ("location", Json.str "")])
    marketOutcome := fun _ _ _ => MarketOutcome.structuredOther
    competitiveOutcome := fun _ _ _ => CompetitiveOutcome.structuredOther
    finSearch := fun _ => Except.ok ""
    financialOutcome := fun _ _ _ => FinancialOutcome.structuredOther "dict"
    synth := fun _ => Json.str "summary" }

/-- C2, counterexample.  The claim's "if and only if the extracted business
is the unknown sentinel or absent" is false: here the extracted business is
the present, usable string `"Bakery"` (not `"unknown"`, not falsy), yet
`combined_agent` halts with the extraction-failure record and no agent or
synthesizer runs, because the extracted location is empty. -/
theorem c2_gate_counterexample :
    extract envGateLoc.extractLLM envGateLoc.jsonLoads "a bakery"
        = Json.obj [("business", Json.str "Bakery"), ("location", Json.str "")] ∧
    (Json.str "Bakery").eqStr "unknown" = false ∧
    (Json.str "Bakery").falsy = false ∧
    combined_agent_traced envGateLoc "a bakery"
      = (Except.ok (extractionFailureRecord
          (Json.obj [("business", Json.str "Bakery"), ("location", Json.str "")])),
         noAgentTrace) :=
  ⟨rfl, rfl, rfl, rfl⟩

/-- C2, amended.  `combined_agent` halts with the extraction-failure record
(and no agent or synthesizer runs) if and only if the source's gate
condition holds of the extracted record: the business is absent, falsy, or
the string `"unknown"`, **or the location is absent or falsy**; whenever
the gate condition fails, all three agents and the synthesizer run.  (An
extraction result that is not a record instead raises before the gate.) -/
theorem c2_gate_amended (env : Env) (q : String) (fields : List (String × Json))
    (hx : extract env.extractLLM env.jsonLoads q = Json.obj fields) :
    (gateHalts (getField fields "business") (getField fields "location") = true →
       combined_agent_traced env q
         = (Except.ok (extractionFailureRecord (Json.obj fields)), noAgentTrace)) ∧
    (∀ b l d, getField fields "business" = some b →
       getField fields "location" = some l →
       d = (getField fields "description").getD (Json.str "N/A") →
       gateHalts (getField fields "business") (getField fields "location") = false →
       combined_agent_traced env q
         = (Except.ok (synthesize env.synth b l d
              (run_market_analysis_agent (env.marketOutcome b l d))
              (run_competitive_analysis_agent (env.competitiveOutcome b l d))
              (financial_analysis_core (env.financialOutcome b l d))),
            { marketReport := some (run_market_analysis_agent (env.marketOutcome b l d))
              competitiveReport := some (run_competitive_analysis_agent (env.competitiveOutcome b l d))
              financialReport := some (financial_analysis_core (env.financialOutcome b l d))
              synthInput := some (mkSynthInput b l d
                (run_market_analysis_agent (env.marketOutcome b l d))
                (run_competitive_analysis_agent (env.competitiveOutcome b l d))
                (financial_analysis_core (env.financialOutcome b l d))) })) := by
  constructor
  · intro hhalt
    exact combined_halt_char env q fields hx hhalt
  · intro b l d hb hl hd hgate
    simp only [gateHalts, hb, hl] at hgate
    exact combined_run_char env q fields b l d hx hb hl hd hgate

/-- An environment whose extraction yields a fully usable intent record. -/
def envGateGood : Env :=
  { extractLLM := fun _ => Except.ok "x"
    jsonLoads := fun _ =>
      Except.ok (Json.obj [("business", Json.str "Cafe"), ("location", Json.str "Pune"),
                           ("description", Json.str "A cafe.")])
    marketOutcome := fun _ _ _ => MarketOutcome.structuredOther
    competitiveOutcome := fun _ _ _ => CompetitiveOutcome.structuredOther
    finSearch := fun _ => Except.ok "snippets"
    financialOutcome := fun _ _ _ => FinancialOutcome.structuredOther "dict"
    synth := fun _ => Json.str "summary" }

/-- C2, witness: the amended gate theorem applied at a concrete environment
with a usable business and location, showing all stages run. -/
theorem c2_gate_amended_witness :
    combined_agent_traced envGateGood "a cafe in Pune"
      = (Except.ok (synthesize envGateGood.synth (Json.str "Cafe") (Json.str "Pune")
            (Json.str "A cafe.")
            (run_market_analysis_agent MarketOutcome.structuredOther)
            (run_competitive_analysis_agent CompetitiveOutcome.structuredOther)
            (financial_analysis_core (FinancialOutcome.structuredOther "dict"))),
         { marketReport := some (run_market_analysis_agent MarketOutcome.structuredOther)
           competitiveReport := some (run_competitive_analysis_agent CompetitiveOutcome.structuredOther)
           financialReport := some (financial_analysis_core (FinancialOutcome.structuredOther "dict"))
           synthInput := some (mkSynthInput (Json.str "Cafe") (Json.str "Pune")
             (Json.str "A cafe.")
             (run_market_analysis_agent MarketOutcome.structuredOther)
             (run_competitive_analysis_agent CompetitiveOutcome.structuredOther)
             (financial_analysis_core (FinancialOutcome.structuredOther "dict"))) }) :=
  (c2_gate_amended envGateGood "a cafe in Pune"
      [("business", Json.str "Cafe"), ("location", Json.str "Pune"),
       ("description", Json.str "A cafe.")] rfl).2
    (Json.str "Cafe") (Json.str "Pune") (Json.str "A cafe.") rfl rfl rfl rfl

/-- C3, counterexample.  The claim's "it always returns a well-formed
IntentRecord" is false: when the generation service answers `"[]"`, the
JSON parse succeeds (`json.loads("[]") == []`) and `extract` returns that
list as-is — not a record at all, with no `business` key to consult. -/
theorem c3_extract_counterexample :
    extract (fun _ => Except.ok "[]") (fun _ => Except.ok (Json.arr []))
        "open some business" = Json.arr [] ∧
    specWellFormedIntentRecord (Json.arr []) = false :=
  ⟨rfl, rfl⟩

/-- C3, amended.  `extract` never raises for any behaviour of the
generation service: when the service call raises, it returns the
three-sentinel record with an `error` field and no raw output; when the
service output fails to parse as JSON, it returns the three-sentinel
record with the `error` field and the raw (cleaned) unparsed output; when
the output parses, it returns the parsed value as-is — which is a
well-formed IntentRecord only if the service emitted one. -/
theorem c3_extract_amended (llm : String → Except String String)
    (loads : String → Except String Json) (text : String) :
    (∀ e, llm text = Except.error e →
       ∃ fields, extract llm loads text = Json.obj fields ∧
         getField fields "business" = some (Json.str "unknown") ∧
         getField fields "location" = some (Json.str "any") ∧
         getField fields "description" = some (Json.str "N/A") ∧
         getField fields "error" = some (Json.str e) ∧
         getField fields "raw_llm_output" = none ∧
         specWellFormedIntentRecord (extract llm loads text) = true) ∧
    (∀ c e, llm text = Except.ok c → loads (cleanLLMOutput c) = Except.error e →
       ∃ fields, extract llm loads text = Json.obj fields ∧
         getField fields "business" = some (Json.str "unknown") ∧
         getField fields "location" = some (Json.str "any") ∧
         getField fields "description" = some (Json.str "N/A") ∧
         getField fields "error" = some (Json.str e) ∧
         getField fields "raw_llm_output" = some (Json.str (cleanLLMOutput c)) ∧
         specWellFormedIntentRecord (extract llm loads text) = true) ∧
    (∀ c v, llm text = Except.ok c → loads (cleanLLMOutput c) = Except.ok v →
       extract llm loads text = v) := by
  refine ⟨?_, ?_, ?_⟩
  · intro e he
    refine ⟨[("business", Json.str "unknown"), ("location", Json.str "any"),
             ("description", Json.str "N/A"), ("error", Json.str e)], ?_, rfl, rfl, rfl, rfl, rfl, ?_⟩
    · simp only [extract, he]
      rfl
    · simp only [extract, he]
      rfl
  · intro c e hc he
    refine ⟨[("business", Json.str "unknown"), ("location", Json.str "any"),
             ("description", Json.str "N/A"), ("error", Json.str e),
             ("raw_llm_output", Json.str (cleanLLMOutput c))], ?_, rfl, rfl, rfl, rfl, rfl, ?_⟩
    · simp only [extract, hc, he]
      rfl
    · simp only [extract, hc, he]
      rfl
  · intro c v hc hv
    simp only [extract, hc, hv]

/-- C3, witness: the amended contract applied at a service that answers
with non-JSON prose, exhibiting the sentinel record with error and raw
output. -/
theorem c3_extract_amended_witness :
    ∃ fields,
      extract (fun _ => Except.ok "I cannot answer that")
          (fun _ => Except.error "Expecting value: line 1 column 1 (char 0)")
          "gibberish" = Json.obj fields ∧
      getField fields "business" = some (Json.str "unknown") ∧
      getField fields "location" = some (Json.str "any") ∧
      getField fields "description" = some (Json.str "N/A") ∧
      getField fields "error" = some (Json.str "Expecting value: line 1 column 1 (char 0)") ∧
      getField fields "raw_llm_output" = some (Json.str (cleanLLMOutput "I cannot answer that")) ∧
      specWellFormedIntentRecord
        (extract (fun _ => Except.ok "I cannot answer that")
          (fun _ => Except.error "Expecting value: line 1 column 1 (char 0)")
          "gibberish") = true :=
  (c3_extract_amended (fun _ => Except.ok "I cannot answer that")
      (fun _ => Except.error "Expecting value: line 1 column 1 (char 0)")
      "gibberish").2.1
    "I cannot answer that" "Expecting value: line 1 column 1 (char 0)" rfl rfl

/-- The market fallback record with an `"Error: ..."` message is degraded
in the spec's sense. -/
lemma specDegraded_marketFallback (cause : String) :
    SpecDegraded "market_overview" (marketFallbackRecord ("Error: " ++ cause)) := by
  intro p hp
  simp only [marketFallbackRecord, List.mem_cons, List.not_mem_nil, or_false] at hp
  rcases hp with rfl | rfl | rfl | rfl | rfl | rfl | rfl
  · rw [if_pos rfl]; exact ⟨cause, rfl⟩
  all_goals rw [if_neg (by decide)]

/-- The competitive fallback record with an `"Error: ..."` message is
degraded in the spec's sense. -/
lemma specDegraded_competitiveFallback (cause : String) :
    SpecDegraded "competitors" (competitiveFallbackRecord ("Error: " ++ cause)) := by
  intro p hp
  simp only [competitiveFallbackRecord, List.mem_cons, List.not_mem_nil, or_false] at hp
  rcases hp with rfl | rfl | rfl | rfl | rfl | rfl
  · rw [if_pos rfl]; exact ⟨cause, rfl⟩
  all_goals rw [if_neg (by decide)]

/-- The financial fallback record with an `"Error: ..."` message is
degraded in the spec's sense. -/
lemma specDegraded_financialFallback (cause : String) :
    SpecDegraded "startup_costs" (financialFallbackRecord ("Error: " ++ cause)) := by
  intro p hp
  simp only [financialFallbackRecord, List.mem_cons, List.not_mem_nil, or_false] at hp
  rcases hp with rfl | rfl | rfl | rfl | rfl | rfl
  · rw [if_pos rfl]; exact ⟨cause, rfl⟩
  all_goals rw [if_neg (by decide)]

/-- C4.  Degradation substitution: whenever an agent's final answer cannot
be coerced to its schema (raised exception, unexpected structure, or a
dict that fails validation), the agent returns a complete record whose
primary field (`market_overview` / `competitors` / `startup_costs`) is an
`"Error: <cause>"` string and whose other fields are all empty; and in a
gate-passing `combined_agent` run whose market loop raised, the
competitive and financial reports are still each agent's own result and
the synthesizer still runs on the degraded market report. -/
theorem c4_degradation_substitution :
    (∀ e, SpecDegraded "market_overview"
       (run_market_analysis_agent (MarketOutcome.raised e))) ∧
    SpecDegraded "market_overview"
       (run_market_analysis_agent MarketOutcome.structuredOther) ∧
    (∀ d e, MarketAnalysisResponse.validate d = Except.error e →
       SpecDegraded "market_overview"
         (run_market_analysis_agent (MarketOutcome.structuredDict d))) ∧
    (∀ e, SpecDegraded "competitors"
       (run_competitive_analysis_agent (CompetitiveOutcome.raised e))) ∧
    SpecDegraded "competitors"
       (run_competitive_analysis_agent CompetitiveOutcome.structuredOther) ∧
    (∀ d e, CompetitiveAnalysisResponse.validate d = Except.error e →
       SpecDegraded "competitors"
         (run_competitive_analysis_agent (CompetitiveOutcome.structuredDict d))) ∧
    (∀ e, SpecDegraded "startup_costs"
       (financial_analysis_core (FinancialOutcome.raised e))) ∧
    (∀ d, SpecDegraded "startup_costs"
       (financial_analysis_core (FinancialOutcome.structuredDict d))) ∧
    (∀ tn, SpecDegraded "startup_costs"
       (financial_analysis_core (FinancialOutcome.structuredOther tn))) ∧
    (∀ (env : Env) (q : String) (fields : List (String × Json)) (b l d : Json) (e : String),
       extract env.extractLLM env.jsonLoads q = Json.obj fields →
       getField fields "business" = some b →
       getField fields "location" = some l →
       d = (getField fields "description").getD (Json.str "N/A") →
       (b.falsy || l.falsy || b.eqStr "unknown") = false →
       env.marketOutcome b l d = MarketOutcome.raised e →
       (combined_agent_traced env q).2.marketReport
           = some (marketFallbackRecord ("Error: " ++ e)) ∧
       SpecDegraded "market_overview" (marketFallbackRecord ("Error: " ++ e)) ∧
       (combined_agent_traced env q).2.competitiveReport
           = some (run_competitive_analysis_agent (env.competitiveOutcome b l d)) ∧
       (combined_agent_traced env q).2.financialReport
           = some (financial_analysis_core (env.financialOutcome b l d)) ∧
       (combined_agent_traced env q).1
           = Except.ok (synthesize env.synth b l d
               (marketFallbackRecord ("Error: " ++ e))
               (run_competitive_analysis_agent (env.competitiveOutcome b l d))
               (financial_analysis_core (env.financialOutcome b l d)))) := by
  refine ⟨fun e => specDegraded_marketFallback e,
          specDegraded_marketFallback "Unexpected response structure.",
          ?_,
          fun e => specDegraded_competitiveFallback e,
          specDegraded_competitiveFallback "Unexpected response structure.",
          ?_,
          fun e => specDegraded_financialFallback e,
          fun d => specDegraded_financialFallback "\x27dict\x27 object has no attribute \x27dict\x27",
          fun tn => ?_,
          ?_⟩
  · intro d e hv
    have h : run_market_analysis_agent (MarketOutcome.structuredDict d)
        = marketFallbackRecord ("Error: " ++ e) := by
      simp [run_market_analysis_agent, hv]
    rw [h]
    exact specDegraded_marketFallback e
  · intro d e hv
    have h : run_competitive_analysis_agent (CompetitiveOutcome.structuredDict d)
        = competitiveFallbackRecord ("Error: " ++ e) := by
      simp [run_competitive_analysis_agent, hv]
    rw [h]
    exact specDegraded_competitiveFallback e
  · have h : financial_analysis_core (FinancialOutcome.structuredOther tn)
        = financialFallbackRecord ("Error: " ++
            ("\x27" ++ tn ++ "\x27 object has no attribute \x27dict\x27")) := by
      show financialFallbackRecord _ = financialFallbackRecord _
      congr 1
    rw [h]
    exact specDegraded_financialFallback _
  · intro env q fields b l d e hx hb hl hd hgate hm
    have h := combined_run_char env q fields b l d hx hb hl hd hgate
    rw [h]
    refine ⟨?_, specDegraded_marketFallback e, rfl, rfl, ?_⟩
    · simp [hm, run_market_analysis_agent]
    · simp [hm, run_market_analysis_agent, synthesize]

/-- C4, witness: the combined part of the degradation theorem applied at a
concrete run whose market react loop raised `"boom"`. -/
def envMarketRaised : Env :=
  { envGateGood with marketOutcome := fun _ _ _ => MarketOutcome.raised "boom" }

/-- C4, witness statement: the degraded market report, the untouched
competitive and financial reports, and the synthesizer invocation, at
`envMarketRaised`. -/
theorem c4_degradation_substitution_witness :
    (combined_agent_traced envMarketRaised "a cafe in Pune").2.marketReport
        = some (marketFallbackRecord ("Error: " ++ "boom")) ∧
    SpecDegraded "market_overview" (marketFallbackRecord ("Error: " ++ "boom")) ∧
    (combined_agent_traced envMarketRaised "a cafe in Pune").2.competitiveReport
        = some (run_competitive_analysis_agent CompetitiveOutcome.structuredOther) ∧
    (combined_agent_traced envMarketRaised "a cafe in Pune").2.financialReport
        = some (financial_analysis_core (FinancialOutcome.structuredOther "dict")) ∧
    (combined_agent_traced envMarketRaised "a cafe in Pune").1
        = Except.ok (synthesize envMarketRaised.synth (Json.str "Cafe") (Json.str "Pune")
            (Json.str "A cafe.")
            (marketFallbackRecord ("Error: " ++ "boom"))
            (run_competitive_analysis_agent CompetitiveOutcome.structuredOther)
            (financial_analysis_core (FinancialOutcome.structuredOther "dict"))) :=
  c4_degradation_substitution.2.2.2.2.2.2.2.2.2 envMarketRaised "a cafe in Pune"
    [("business", Json.str "Cafe"), ("location", Json.str "Pune"),
     ("description", Json.str "A cafe.")]
    (Json.str "Cafe") (Json.str "Pune") (Json.str "A cafe.") "boom"
    rfl rfl rfl rfl rfl rfl

/-- A gate-passing environment whose synthesis call answers with plain
prose instead of the four-field JSON object. -/
def envSynthProse : Env :=
  { envGateGood with synth := fun _ => Json.str "Here is your summary, in prose." }

/-- C5, counterexample.  The claim that every gate-passing run returns a
record with exactly the four string fields is false: `combined_agent`
returns the synthesis call's raw response unparsed, so when the service
answers with prose the returned value is that string, not a four-field
record. -/
theorem c5_combined_result_counterexample :
    combined_agent envSynthProse "a cafe in Pune"
        = Except.ok (Json.str "Here is your summary, in prose.") ∧
    specIsCombinedResult (Json.str "Here is your summary, in prose.") = false :=
  ⟨rfl, rfl⟩

/-- C5, amended.  For every gate-passing run, `combined_agent` returns the
synthesizer service's raw response unchanged; the returned value is a
record with exactly the four string fields precisely when that raw
response is one. -/
theorem c5_combined_result_amended (env : Env) (q : String)
    (fields : List (String × Json)) (b l d : Json)
    (hx : extract env.extractLLM env.jsonLoads q = Json.obj fields)
    (hb : getField fields "business" = some b)
    (hl : getField fields "location" = some l)
    (hd : d = (getField fields "description").getD (Json.str "N/A"))
    (hgate : (b.falsy || l.falsy || b.eqStr "unknown") = false) :
    combined_agent env q
      = Except.ok (synthesize env.synth b l d
          (run_market_analysis_agent (env.marketOutcome b l d))
          (run_competitive_analysis_agent (env.competitiveOutcome b l d))
          (financial_analysis_core (env.financialOutcome b l d))) ∧
    ∀ j, combined_agent env q = Except.ok j →
      specIsCombinedResult j
        = specIsCombinedResult (synthesize env.synth b l d
            (run_market_analysis_agent (env.marketOutcome b l d))
            (run_competitive_analysis_agent (env.competitiveOutcome b l d))
            (financial_analysis_core (env.financialOutcome b l d))) := by
  have h := combined_run_char env q fields b l d hx hb hl hd hgate
  have h1 : combined_agent env q
      = Except.ok (synthesize env.synth b l d
          (run_market_analysis_agent (env.marketOutcome b l d))
          (run_competitive_analysis_agent (env.competitiveOutcome b l d))
          (financial_analysis_core (env.financialOutcome b l d))) := by
    unfold combined_agent
    rw [h]
  refine ⟨h1, ?_⟩
  intro j hj
  rw [h1] at hj
  cases hj
  rfl

/-- A gate-passing environment whose synthesis call answers with a proper
four-field record. -/
def envSynthRecord : Env :=
  { envGateGood with synth := fun _ =>
      (Json.obj [("market_analysis", Json.str "m"), ("competitive_analysis", Json.str "c"),
                 ("financial_analysis", Json.str "f"), ("executive_summary", Json.str "s")]) }

/-- C5, witness: the passthrough theorem at a service that does answer with
the four-field record, which is then returned unchanged. -/
theorem c5_combined_result_amended_witness :
    combined_agent envSynthRecord "a cafe in Pune"
      = Except.ok (synthesize envSynthRecord.synth (Json.str "Cafe") (Json.str "Pune")
          (Json.str "A cafe.")
          (run_market_analysis_agent MarketOutcome.structuredOther)
          (run_competitive_analysis_agent CompetitiveOutcome.structuredOther)
          (financial_analysis_core (FinancialOutcome.structuredOther "dict"))) :=
  (c5_combined_result_amended envSynthRecord "a cafe in Pune"
      [("business", Json.str "Cafe"), ("location", Json.str "Pune"),
       ("description", Json.str "A cafe.")]
      (Json.str "Cafe") (Json.str "Pune") (Json.str "A cafe.")
      rfl rfl rfl rfl rfl).1

/-- C6.  Synthesizer permissive failure path: whenever the synthesis
service's response is not coercible to the four-field schema, a
gate-passing `combined_agent` run returns that raw response as-is — every
value it returns fails the schema checker too, i.e. no schema-complete
fallback record is substituted. -/
theorem c6_synthesizer_permissive (env : Env) (q : String)
    (fields : List (String × Json)) (b l d : Json)
    (hx : extract env.extractLLM env.jsonLoads q = Json.obj fields)
    (hb : getField fields "business" = some b)
    (hl : getField fields "location" = some l)
    (hd : d = (getField fields "description").getD (Json.str "N/A"))
    (hgate : (b.falsy || l.falsy || b.eqStr "unknown") = false)
    (hbad : specIsCombinedResult (synthesize env.synth b l d
        (run_market_analysis_agent (env.marketOutcome b l d))
        (run_competitive_analysis_agent (env.competitiveOutcome b l d))
        (financial_analysis_core (env.financialOutcome b l d))) = false) :
    combined_agent env q
      = Except.ok (synthesize env.synth b l d
          (run_market_analysis_agent (env.marketOutcome b l d))
          (run_competitive_analysis_agent (env.competitiveOutcome b l d))
          (financial_analysis_core (env.financialOutcome b l d))) ∧
    ∀ j, combined_agent env q = Except.ok j → specIsCombinedResult j = false := by
  have h : combined_agent env q
      = Except.ok (synthesize env.synth b l d
          (run_market_analysis_agent (env.marketOutcome b l d))
          (run_competitive_analysis_agent (env.competitiveOutcome b l d))
          (financial_analysis_core (env.financialOutcome b l d))) := by
    unfold combined_agent
    rw [combined_run_char env q fields b l d hx hb hl hd hgate]
  refine ⟨h, ?_⟩
  intro j hj
  rw [h] at hj
  cases hj
  exact hbad

/-- A gate-passing environment whose synthesis call answers with a partial
record (one field missing), not coercible to the four-field schema. -/
def envSynthPartial : Env :=
  { envGateGood with synth := fun _ =>
      (Json.obj [("market_analysis", Json.str "m"), ("competitive_analysis", Json.str "c"),
                 ("financial_analysis", Json.str "f")]) }

/-- C6, witness: the permissive-failure theorem at a service answering with
a three-field record; the run returns it unchanged and unrepaired. -/
theorem c6_synthesizer_permissive_witness :
    combined_agent envSynthPartial "a cafe in Pune"
      = Except.ok (synthesize envSynthPartial.synth (Json.str "Cafe") (Json.str "Pune")
          (Json.str "A cafe.")
          (run_market_analysis_agent MarketOutcome.structuredOther)
          (run_competitive_analysis_agent CompetitiveOutcome.structuredOther)
          (financial_analysis_core (FinancialOutcome.structuredOther "dict"))) ∧
    ∀ j, combined_agent envSynthPartial "a cafe in Pune" = Except.ok j →
      specIsCombinedResult j = false :=
  c6_synthesizer_permissive envSynthPartial "a cafe in Pune"
    [("business", Json.str "Cafe"), ("location", Json.str "Pune"),
     ("description", Json.str "A cafe.")]
    (Json.str "Cafe") (Json.str "Pune") (Json.str "A cafe.")
    rfl rfl rfl rfl rfl (by rfl)

/-- C7.  Financial direct-query resilience: `financial_analysis` issues
exactly the fixed battery of four lookup queries (startup costs, average
revenue, funding options, profit margins, parameterized by business and
location); for every behaviour of the lookup tool — any subset of the
queries raising — each failing query contributes only a warning while each
surviving query still contributes its result block, and the returned
report is the reasoning loop's coercion regardless, so no individual query
failure is fatal. -/
theorem c7_financial_query_resilience :
    ∀ (sr : String → Except String String) (o : FinancialOutcome) (b l : String),
      financialQueries (Json.str b) (Json.str l)
        = ["startup costs for " ++ b ++ " in " ++ l,
           "average revenue for " ++ b ++ " in " ++ l,
           "funding options for " ++ b ++ " startup",
           "profit margins for " ++ b ++ " industry"] ∧
      (financial_analysis sr o (Json.str b) (Json.str l)).report
        = financial_analysis_core o ∧
      (financial_analysis sr o (Json.str b) (Json.str l)).searchLog
        = (financialQueries (Json.str b) (Json.str l)).filterMap (fun q =>
            match sr q with
            | .ok s => some ("--- Search Results for \x27" ++ q ++ "\x27 ---\n" ++ s ++ "\n")
            | .error _ => none) ∧
      (financial_analysis sr o (Json.str b) (Json.str l)).warnings
        = (financialQueries (Json.str b) (Json.str l)).filterMap (fun q =>
            match sr q with
            | .ok _ => none
            | .error e => some ("Error performing search for \x27" ++ q ++ "\x27: " ++ e ++ "\n")) := by
  intro sr o b l
  refine ⟨rfl, rfl, ?_, ?_⟩
  · show (runFinancialQueries sr (financialQueries (Json.str b) (Json.str l))).1 = _
    rw [runFinancialQueries_spec]
  · show (runFinancialQueries sr (financialQueries (Json.str b) (Json.str l))).2 = _
    rw [runFinancialQueries_spec]

/-- C8.  Agent independence: in any gate-passing run, each of the three
reports equals the standalone result of its own agent on the shared
(business, location, description) values; and for two runs over the same
extracted intent, equality of one agent's service behaviour alone forces
equality of that agent's report, regardless of how the other agents' or
the synthesizer's services differ — no report depends on another agent's
output. -/
theorem c8_agent_independence (env env' : Env) (q q' : String)
    (fields : List (String × Json)) (b l d : Json)
    (hx : extract env.extractLLM env.jsonLoads q = Json.obj fields)
    (hx' : extract env'.extractLLM env'.jsonLoads q' = Json.obj fields)
    (hb : getField fields "business" = some b)
    (hl : getField fields "location" = some l)
    (hd : d = (getField fields "description").getD (Json.str "N/A"))
    (hgate : (b.falsy || l.falsy || b.eqStr "unknown") = false) :
    (combined_agent_traced env q).2.marketReport
        = some (run_market_analysis_agent (env.marketOutcome b l d)) ∧
    (combined_agent_traced env q).2.competitiveReport
        = some (run_competitive_analysis_agent (env.competitiveOutcome b l d)) ∧
    (combined_agent_traced env q).2.financialReport
        = some (financial_analysis_core (env.financialOutcome b l d)) ∧
    (env.marketOutcome = env'.marketOutcome →
       (combined_agent_traced env q).2.marketReport
         = (combined_agent_traced env' q').2.marketReport) ∧
    (env.competitiveOutcome = env'.competitiveOutcome →
       (combined_agent_traced env q).2.competitiveReport
         = (combined_agent_traced env' q').2.competitiveReport) ∧
    (env.financialOutcome = env'.financialOutcome →
       (combined_agent_traced env q).2.financialReport
         = (combined_agent_traced env' q').2.financialReport) := by
  have h := combined_run_char env q fields b l d hx hb hl hd hgate
  have h' := combined_run_char env' q' fields b l d hx' hb hl hd hgate
  rw [h, h']
  refine ⟨rfl, rfl, rfl, ?_, ?_, ?_⟩
  · intro heq; rw [heq]
  · intro heq; rw [heq]
  · intro heq; rw [heq]

/-- C8, witness: two environments over the same extracted intent that
differ only in the synthesizer's behaviour; every agent's report is the
standalone result and agrees across the two runs. -/
theorem c8_agent_independence_witness :
    (combined_agent_traced envGateGood "a cafe in Pune").2.marketReport
        = some (run_market_analysis_agent MarketOutcome.structuredOther) ∧
    (combined_agent_traced envGateGood "a cafe in Pune").2.competitiveReport
        = some (run_competitive_analysis_agent CompetitiveOutcome.structuredOther) ∧
    (combined_agent_traced envGateGood "a cafe in Pune").2.financialReport
        = some (financial_analysis_core (FinancialOutcome.structuredOther "dict")) ∧
    (envGateGood.marketOutcome = envSynthProse.marketOutcome →
       (combined_agent_traced envGateGood "a cafe in Pune").2.marketReport
         = (combined_agent_traced envSynthProse "my cafe").2.marketReport) ∧
    (envGateGood.competitiveOutcome = envSynthProse.competitiveOutcome →
       (combined_agent_traced envGateGood "a cafe in Pune").2.competitiveReport
         = (combined_agent_traced envSynthProse "my cafe").2.competitiveReport) ∧
    (envGateGood.financialOutcome = envSynthProse.financialOutcome →
       (combined_agent_traced envGateGood "a cafe in Pune").2.financialReport
         = (combined_agent_traced envSynthProse "my cafe").2.financialReport) :=
  c8_agent_independence envGateGood envSynthProse "a cafe in Pune" "my cafe"
    [("business", Json.str "Cafe"), ("location", Json.str "Pune"),
     ("description", Json.str "A cafe.")]
    (Json.str "Cafe") (Json.str "Pune") (Json.str "A cafe.")
    rfl rfl rfl rfl rfl rfl

/-- C9.  Determinism of re-synthesis: the synthesis stage is a pure
function of the deterministic generation call and its six inputs, so two
invocations with identical intent values and identical report records
yield identical results. -/
theorem c9_resynthesis_deterministic (f : SynthInput → Json)
    (b l d b' l' d' : Json) (m c fi m' c' fi' : List (String × String))
    (hb : b = b') (hl : l = l') (hd : d = d')
    (hm : m = m') (hc : c = c') (hf : fi = fi') :
    synthesize f b l d m c fi = synthesize f b' l' d' m' c' fi' := by
  subst hb; subst hl; subst hd; subst hm; subst hc; subst hf
  rfl

/-- C9, witness: re-synthesizing the same concrete intent and reports
against the same service function gives the same combined result. -/
theorem c9_resynthesis_deterministic_witness :
    synthesize (fun si => Json.str si.market) (Json.str "B") (Json.str "L") (Json.str "D")
        [("market_overview", "mo")] [("competitors", "co")] [("startup_costs", "sc")]
      = synthesize (fun si => Json.str si.market) (Json.str "B") (Json.str "L") (Json.str "D")
        [("market_overview", "mo")] [("competitors", "co")] [("startup_costs", "sc")] :=
  c9_resynthesis_deterministic (fun si => Json.str si.market)
    (Json.str "B") (Json.str "L") (Json.str "D")
    (Json.str "B") (Json.str "L") (Json.str "D")
    [("market_overview", "mo")] [("competitors", "co")] [("startup_costs", "sc")]
    [("market_overview", "mo")] [("competitors", "co")] [("startup_costs", "sc")]
    rfl rfl rfl rfl rfl rfl

/-- C10.  Implicit location gate: even when the extracted business is
present, non-empty and not the `"unknown"` sentinel, `combined_agent`
still halts with the extraction-failure record — invoking no agent and no
synthesizer — whenever the extracted location is absent or the empty
string. -/
theorem c10_location_gate (env : Env) (q : String)
    (fields : List (String × Json)) (bs : String)
    (hx : extract env.extractLLM env.jsonLoads q = Json.obj fields)
    (hb : getField fields "business" = some (Json.str bs))
    (_hbu : bs ≠ "unknown") (_hbe : bs ≠ "")
    (hloc : getField fields "location" = none ∨
            getField fields "location" = some (Json.str "")) :
    combined_agent_traced env q
      = (Except.ok (extractionFailureRecord (Json.obj fields)), noAgentTrace) := by
  apply combined_halt_char env q fields hx
  rcases hloc with h | h <;> simp [gateHalts, hb, h, Json.falsy]

/-- An environment whose extraction finds a business but no location key
at all. -/
def envLocMissing : Env :=
  { envGateGood with jsonLoads := fun _ =>
      (Except.ok (Json.obj [("business", Json.str "Salon")])) }

/-- C10, witness: the location gate at an extraction with business
`"Salon"` and no location key: the run halts with the failure record and
no stage trace. -/
theorem c10_location_gate_witness :
    combined_agent_traced envLocMissing "a salon"
      = (Except.ok (extractionFailureRecord (Json.obj [("business", Json.str "Salon")])),
         noAgentTrace) :=
  c10_location_gate envLocMissing "a salon" [("business", Json.str "Salon")] "Salon"
    rfl rfl (by decide) (by decide) (Or.inl rfl)

end VentureVision
